import Mathlib

/-!
# Verification of the traccc dual-path reconstruction executables

Shallow embedding of the pile-up simulator (`multi_vtx_simulator.hpp`), the
seed writer (`mywrite`, seed-collection overload), the CUDA `seq_run`
orchestrator (`seq_run.cpp`-style main loop) and the truth-track-fitting
`main`, together with theorems settling the frozen specification claims.
-/

namespace SeqRun

/-- The event loop of `seq_run` / truth-fitting `main`:
`for (event = skip; event < events + skip; ++event)`, collecting the indices
processed, in processing order. -/
def loopFrom (event stop : Nat) : List Nat :=
  if event < stop then event :: loopFrom (event + 1) stop else []
termination_by stop - event

/-- Event indices processed for options `skip`, `events`
(the loop bound `events + skip` as written in the source). -/
def processedEvents (skip events : Nat) : List Nat :=
  loopFrom skip (events + skip)

/-! ## Cross-path comparator (track-candidate matching loop)

Embedding of the block

```cpp
unsigned int n_matches = 0;
for (unsigned int i = 0; i < track_candidates.size(); i++) {
  auto iso = traccc::details::is_same_object(track_candidates.at(i).items);
  for (unsigned int j = 0; j < track_candidates_cuda.size(); j++) {
    if (iso(track_candidates_cuda.at(j).items)) { n_matches++; break; }
  }
}
```

A track candidate is represented by its measurement-association sequence
(`items`), a `List Nat` of measurement links.  The predicate
`traccc::details::is_same_object` lives in the performance library outside
this repository, so it is kept abstract as a parameter `iso`. -/

/-- Inner `j` loop: scan the accelerator candidates and return 1 on the first
hit (the `break`), 0 if none matches. -/
def innerLoop (iso : List Nat → Bool) : List (List Nat) → Nat
  | [] => 0
  | d :: rest => if iso d then 1 else innerLoop iso rest

/-- Outer `i` loop: `n_matches` accumulated over all CPU candidates. -/
def nMatches (iso : List Nat → List Nat → Bool)
    (cpu cuda : List (List Nat)) : Nat :=
  (cpu.map (fun c => innerLoop (iso c) cuda)).sum

/-- Value domain of the C++ `float` expressions the comparator prints.
Modelled from the spec: rounding of finite values is not modelled (they are
kept as exact rationals); the IEEE-754 special values produced by a zero
divisor are modelled explicitly. -/
inductive FloatV where
  | val : ℚ → FloatV
  | posInf : FloatV
  | negInf : FloatV
  | nan : FloatV
deriving DecidableEq

/-- Modelled from the spec: IEEE-754 `float` division, as used in
`float(n_matches) / track_candidates.size()`.  A zero divisor yields NaN when
the dividend is also zero and a signed infinity otherwise; otherwise the
exact quotient. -/
def fdiv (a b : ℚ) : FloatV :=
  if b = 0 then
    if a = 0 then .nan else if 0 < a then .posInf else .negInf
  else .val (a / b)

/-- Rendering of a `float` by the C++ stream inserter (libstdc++ prints the
special values as `nan` / `inf`); finite values rendered as their exact
rational. -/
def FloatV.render : FloatV → String
  | .val q => toString q
  | .posInf => "inf"
  | .negInf => "-inf"
  | .nan => "nan"

/-- The match-rate scalar `float(n_matches) / track_candidates.size()`
computed (with no guard on the divisor) and printed by the comparator. -/
def matchRate (iso : List Nat → List Nat → Bool)
    (cpu cuda : List (List Nat)) : FloatV :=
  fdiv (nMatches iso cpu cuda) cpu.length

/-- The line appended to `track_candidate.txt`:
rate, CPU candidate count, accelerator candidate count. -/
def comparatorFileLine (iso : List Nat → List Nat → Bool)
    (cpu cuda : List (List Nat)) : String :=
  (matchRate iso cpu cuda).render ++ " " ++ toString cpu.length ++ " " ++
    toString cuda.length

/-- File section of the comparator block for one event:
`file_track_candidate.open(filename, std::ios::app)`; on success the line is
appended and the file closed, on failure an error line goes to `std::cerr`
and the write is skipped.  Returns (appended lines, error lines). -/
def eventFileSection (openOk : Bool) (iso : List Nat → List Nat → Bool)
    (cpu cuda : List (List Nat)) : List String × List String :=
  if openOk then ([comparatorFileLine iso cpu cuda], [])
  else ([], ["Unable to open file: "])

/-! ## Run-level statistics (`seq_run`) -/

/-- Host-side data of one event: what the readers return and what each stage
produces on each path.  CPU-path fields record what the CPU stage *would*
produce when invoked; `seq_run` only invokes those stages when
`compare_with_cpu` is set. -/
structure EventData where
  spacepoints : Nat
  modules : Nat
  measurements : Nat
  cudaSeeds : Nat
  cudaCands : List (List Nat)
  cudaStates : Nat
  cpuSeeds : Nat
  cpuCands : List (List Nat)
  cpuStates : Nat

/-- The eight `uint64_t` run counters of `seq_run`. -/
structure Stats where
  n_modules : Nat
  n_spacepoints : Nat
  n_seeds : Nat
  n_seeds_cuda : Nat
  n_found_tracks : Nat
  n_found_tracks_cuda : Nat
  n_fitted_tracks : Nat
  n_fitted_tracks_cuda : Nat
deriving DecidableEq

/-- Zero-initialisation `uint64_t n_* = 0;` of the counters. -/
def Stats.init : Stats := ⟨0, 0, 0, 0, 0, 0, 0, 0⟩

/-- One iteration of the event loop, statistics part.  The CPU containers
(`seeds`, `track_candidates`, `track_states`) are default-constructed empty
and filled only inside `if (accelerator_opts.compare_with_cpu)` blocks; the
statistics block then adds the container sizes unconditionally. -/
def processEvent (compare : Bool) (ev : EventData) (s : Stats) : Stats :=
  let seeds := if compare then ev.cpuSeeds else 0
  let cands := if compare then ev.cpuCands else []
  let states := if compare then ev.cpuStates else 0
  { n_spacepoints := s.n_spacepoints + ev.spacepoints
    n_modules := s.n_modules + ev.modules
    n_seeds_cuda := s.n_seeds_cuda + ev.cudaSeeds
    n_seeds := s.n_seeds + seeds
    n_found_tracks_cuda := s.n_found_tracks_cuda + ev.cudaCands.length
    n_found_tracks := s.n_found_tracks + cands.length
    n_fitted_tracks_cuda := s.n_fitted_tracks_cuda + ev.cudaStates
    n_fitted_tracks := s.n_fitted_tracks + states }

/-- The full event loop, statistics part, also counting how many times the
comparator block (the body of `if (accelerator_opts.compare_with_cpu)` after
the download) executes. -/
def seqRunStats (compare : Bool) (evs : List EventData) : Stats × Nat :=
  evs.foldl
    (fun acc ev =>
      (processEvent compare ev acc.1, acc.2 + if compare then 1 else 0))
    (Stats.init, 0)

/-! ## Output-file behaviour and exit status of `seq_run`

`seq_run` touches four output-file handles: the per-event append to
`track_candidate.txt` inside the comparator block, the post-loop append of
the timing table to `tempo_time.txt`, the re-opening of `tempo_time.txt` for
reading, and the opening of `processing_time.txt` for writing.  Which of
these opens succeed is environment state, modelled by `IOWorld`. -/

structure IOWorld where
  /-- Per event index: does `file_track_candidate.open(filename, app)` succeed? -/
  trackCandOpenOk : Nat → Bool
  /-- Does `file_tempo_time.open(filename_tempo, app)` succeed? -/
  tempoOpenOk : Bool
  /-- Does `std::ifstream inputFile(filename_tempo)` open? -/
  tempoReadOk : Bool
  /-- Does `std::ofstream outputFile("processing_time.txt")` open? -/
  procTimeOpenOk : Bool

/-- Observable outcome of one `seq_run` call. -/
structure RunOutcome where
  /-- Event indices whose loop body ran to completion, in order. -/
  processed : List Nat
  /-- Lines appended to `track_candidate.txt` over the run. -/
  trackCandAppends : List String
  /-- Lines appended to `tempo_time.txt`. -/
  tempoAppends : List String
  /-- Lines written to `std::cerr`. -/
  errLines : List String
  /-- Return value of `seq_run`. -/
  exitCode : Nat

/-- File side effects of the event loop: per event index, the comparator
block runs only under `compare_with_cpu` and appends one line to
`track_candidate.txt` (or reports the failed open to `std::cerr`).
Returns (appended lines, error lines) in loop order. -/
def loopSections (w : IOWorld) (compare : Bool)
    (iso : List Nat → List Nat → Bool)
    (cpuCands cudaCands : Nat → List (List Nat)) :
    List Nat → List String × List String
  | [] => ([], [])
  | e :: rest =>
    let sec :=
      if compare then
        eventFileSection (w.trackCandOpenOk e) iso (cpuCands e) (cudaCands e)
      else ([], [])
    let r := loopSections w compare iso cpuCands cudaCands rest
    (sec.1 ++ r.1, sec.2 ++ r.2)

/-- Embedding of `seq_run`'s file I/O and return paths.  Per processed event
(when `compare_with_cpu` is set) the comparator block appends one line to
`track_candidate.txt` or reports the failed open; open failures never leave
the loop.  After the loop the timing table is appended to `tempo_time.txt`
(failure again only reported); then `tempo_time.txt` is re-opened for
reading and `processing_time.txt` for writing — on either open failure
`seq_run` returns 1, otherwise 0. -/
def seqRunFiles (w : IOWorld) (compare : Bool) (skip events : Nat)
    (iso : List Nat → List Nat → Bool)
    (cpuCands cudaCands : Nat → List (List Nat)) : RunOutcome :=
  let evs := processedEvents skip events
  let secs := loopSections w compare iso cpuCands cudaCands evs
  let appends := secs.1
  let loopErrs := secs.2
  let tempoAppends := if w.tempoOpenOk then ["<elapsedTimes>"] else []
  let tempoErrs := if w.tempoOpenOk then [] else ["Unable to open file: "]
  if ¬ w.tempoReadOk then
    { processed := evs, trackCandAppends := appends,
      tempoAppends := tempoAppends,
      errLines := loopErrs ++ tempoErrs ++ ["unable to open input file"],
      exitCode := 1 }
  else if ¬ w.procTimeOpenOk then
    { processed := evs, trackCandAppends := appends,
      tempoAppends := tempoAppends,
      errLines := loopErrs ++ tempoErrs ++
        ["unable to open processing_time.txt"],
      exitCode := 1 }
  else
    { processed := evs, trackCandAppends := appends,
      tempoAppends := tempoAppends,
      errLines := loopErrs ++ tempoErrs,
      exitCode := 0 }

/-- An `IOWorld` in which every open succeeds. -/
def IOWorld.allOk : IOWorld := ⟨fun _ => true, true, true, true⟩

/-! ## Per-event accelerator trace (stream ordering)

The accelerator-side operations of one event-loop body, in issue order, as a
concrete trace.  `strm` is the identifier of the CUDA stream used (the single
`traccc::cuda::stream stream;` of `seq_run` is stream 0). -/

inductive Op where
  /-- Embeds `async_copy(host, buffer)`: host-to-device copy enqueued on a stream. -/
  | h2dCopy (strm : Nat) (what : String)
  /-- An accelerator stage call enqueued on a stream. -/
  | kernel (strm : Nat) (stage : String)
  /-- Embeds `stream.synchronize()`. -/
  | streamSync (strm : Nat)
  /-- Embeds `async_copy(buffer, host)->wait()`: device-to-host copy enqueued on a
  stream, then blocked on until complete. -/
  | d2hCopyWait (strm : Nat) (what : String)
  /-- A blocking device-to-host container copy through the synchronous
  `vecmem::cuda::copy` object (`track_candidate_d2h`, `track_state_d2h`). -/
  | blockingCopy (what : String)
  /-- A host-side read of accelerator-produced data. -/
  | hostRead (what : String)
deriving DecidableEq

def Op.isKernel : Op → Bool
  | .kernel _ _ => true
  | _ => false

def Op.isSync : Op → Bool
  | .streamSync _ => true
  | _ => false

/-- Operations that block the host until all previously issued work on the
stream has completed (the stream is in-order, and the synchronous copy object
uses legacy default-stream semantics). -/
def Op.isBarrier : Op → Bool
  | .streamSync _ => true
  | .d2hCopyWait _ _ => true
  | .blockingCopy _ => true
  | _ => false

def Op.isHostRead : Op → Bool
  | .hostRead _ => true
  | _ => false

def Op.streamOf : Op → Option Nat
  | .h2dCopy s _ => some s
  | .kernel s _ => some s
  | .streamSync s => some s
  | .d2hCopyWait s _ => some s
  | _ => none

/-- The accelerator-side trace of one event of `seq_run`, in source order:
the three input uploads, seeding then `stream.synchronize()`, parameter
estimation then `stream.synchronize()`, the host-side
`copy.get_size(seeds_cuda_buffer)` sizing the navigation buffer, finding and
fitting (whose completion is not awaited by any further synchronize), the
two awaited seed/parameter downloads, the two blocking container downloads,
and the host-side consumption (comparator, statistics, writers). -/
def eventTrace : List Op :=
  [ .h2dCopy 0 "spacepoints", .h2dCopy 0 "modules",
    .h2dCopy 0 "measurements",
    .kernel 0 "seeding", .streamSync 0,
    .kernel 0 "track_params", .streamSync 0,
    .hostRead "seed_count",
    .kernel 0 "finding", .kernel 0 "fitting",
    .d2hCopyWait 0 "seeds", .d2hCopyWait 0 "params",
    .blockingCopy "track_candidates", .blockingCopy "track_states",
    .hostRead "comparison_statistics_writers" ]

/-- All stream-directed operations of a trace use one and the same stream. -/
def onOneStream (t : List Op) : Bool :=
  match t.filterMap Op.streamOf with
  | [] => true
  | s :: rest => rest.all (· == s)

/-- Number of `stream.synchronize()` calls in a trace. -/
def syncCount (t : List Op) : Nat := t.countP Op.isSync

/-- Element of a trace at position `i` (positions are always in range where
this is used). -/
def opAt (t : List Op) (i : Nat) : Op := t.getD i (.streamSync 0)

/-- Every host-side read is separated from every earlier kernel by a barrier
(a stream synchronize or a blocking copy), so no host read consumes data
whose producing kernel may still be running. -/
def readsCovered (t : List Op) : Bool :=
  (List.range t.length).all fun i =>
    !(opAt t i).isHostRead ||
      (List.range i).all fun j =>
        !(opAt t j).isKernel ||
          (List.range i).any fun k => decide (j < k) && (opAt t k).isBarrier

/-- The property claimed of the per-event trace: single stream, and exactly
one `stream.synchronize()` awaiting the stage chain. -/
def c3ClaimProp : Prop :=
  onOneStream eventTrace = true ∧ syncCount eventTrace = 1

/-! ## Navigation scratch buffer (finding/fitting arguments) -/

/-- Device buffers named in the event body of `seq_run`. -/
inductive BufferId where
  | spacepoints
  | modules
  | measurements
  | seeds
  | params
  | navigation
  | candidates
  | states
deriving DecidableEq

/-- The device buffers the orchestrator itself allocates in one event body,
in source order, with the sizes requested: the three input uploads sized by
the host collections, and the navigation scratch buffer sized
`device_finding.get_config().navigation_buffer_size_scaler *
copy.get_size(seeds_cuda_buffer)` by `detray::create_candidates_buffer`.
(The seed/parameter/candidate/state buffers are produced by the stage calls
themselves.) -/
def eventAllocations (nSp nMod nMeas scaler nSeedsCuda : Nat) :
    List (BufferId × Nat) :=
  [ (.spacepoints, nSp), (.modules, nMod), (.measurements, nMeas),
    (.navigation, scaler * nSeedsCuda) ]

/-- Buffer arguments of
`device_finding(det_view, field, navigation_buffer, measurements_cuda_buffer,
params_cuda_buffer)`. -/
def findingArgs : List BufferId := [.navigation, .measurements, .params]

/-- Buffer arguments of
`device_fitting(det_view, field, navigation_buffer,
track_candidates_cuda_buffer)`. -/
def fittingArgs : List BufferId := [.navigation, .candidates]

end SeqRun

namespace MultiVtxSim

/-!
## Pile-up vertex generation (`multi_vtx_simulator::setup_pu`)

```cpp
void setup_pu(int nvtx, int ntrk_per_vtx){
  m_pu_track_generators.clear();
  std::random_device seed_gen;
  std::default_random_engine engine(seed_gen());
  std::normal_distribution<> distz(0, 54);
  std::normal_distribution<> distx(0, 0.04);
  std::normal_distribution<> disty(0, 0.04);
  for(int i=0; i<nvtx; i++){
    float zpos = distz(engine);
    float xpos = distx(engine);
    float ypos = disty(engine);
    ...cfg.origin(point3{xpos, ypos, zpos}); ... cfg.seed(cfg.seed() + i); ...
  }
}
```

The engine is seeded from `std::random_device`, a non-deterministic hardware
entropy source; that draw is therefore an explicit input `rd` of the
embedding.  `std::default_random_engine` and `std::normal_distribution` are
C++ standard-library components outside this repository; the engine is
modelled as libstdc++'s `minstd_rand0` linear congruential generator and a
normal draw as a deterministic function of one engine step.  The claims
settled here rest only on the facts this model preserves: a draw is a pure
function of the engine state, the engine state is a pure function of the
`std::random_device` value, and distinct engine states yield distinct draws.
-/

/-- Seeding of the linear congruential engine: state `rd mod 2147483647`,
with a zero state replaced by 1. -/
def engineSeedInit (rd : Nat) : Nat :=
  if rd % 2147483647 = 0 then 1 else rd % 2147483647

/-- One step of the engine: `x := 16807 * x mod 2147483647`. -/
def engineNext (s : Nat) : Nat := (16807 * s) % 2147483647

/-- Modelled from the spec: one draw of `std::normal_distribution<>(0,
stddev)`, advancing the engine by one step and mapping the new state through
a strictly monotone function scaled by the standard deviation.  Returns the
draw and the new engine state. -/
def normalDraw (stddev : ℚ) (s : Nat) : ℚ × Nat :=
  let s1 := engineNext s
  (stddev * (s1 : ℚ), s1)

/-- The part of a `generator_type::configuration` that `setup_pu` writes:
track count, vertex origin `(x, y, z)`, and the generator seed
(`cfg.seed() + i`, where the default seed is `baseSeed`).  The fixed fields
(`origin_stddev`, `phi_range`, `eta_range`, `mom_range`,
`randomize_charge`) are the same for every generator and are omitted. -/
structure PuGenCfg where
  n_tracks : Nat
  origin : ℚ × ℚ × ℚ
  seed : Nat
deriving DecidableEq

/-- The `for(int i=0; i<nvtx; i++)` loop of `setup_pu`: per vertex, draw
`zpos`, `xpos`, `ypos` in that order (threading the engine state), then build
the generator configuration with origin `{xpos, ypos, zpos}` and seed
`baseSeed + i`. -/
def setupPuLoop (baseSeed ntrk : Nat) : Nat → Nat → Nat → List PuGenCfg
  | 0, _, _ => []
  | n + 1, i, s =>
    let dz := normalDraw 54 s
    let dx := normalDraw (1 / 25) dz.2
    let dy := normalDraw (1 / 25) dx.2
    { n_tracks := ntrk, origin := (dx.1, dy.1, dz.1), seed := baseSeed + i } ::
      setupPuLoop baseSeed ntrk n (i + 1) dy.2

/-- Embedding of `multi_vtx_simulator::setup_pu`, as a function of the vertex count, the
tracks per vertex, the default generator seed `baseSeed` (a detray-side
constant) and the value `rd` that `seed_gen()` read from the hardware
`std::random_device`. -/
def setup_pu (nvtx ntrk baseSeed rd : Nat) : List PuGenCfg :=
  setupPuLoop baseSeed ntrk nvtx 0 (engineSeedInit rd)

/-- The determinism property the claim asserts: the generator list depends
only on `(nvtx, ntrk, baseSeed)`, not on the hardware random draw. -/
def c1ClaimProp : Prop :=
  ∀ nvtx ntrk baseSeed rd rd',
    setup_pu nvtx ntrk baseSeed rd = setup_pu nvtx ntrk baseSeed rd'

end MultiVtxSim

namespace MyWrite

/-!
## Seed writer (`traccc::io::mywrite`, seed-collection overload)

```cpp
std::string filename = data_directory() + directory.data() + device.data() +
    get_event_filename(event, "-seeds.txt");
std::ofstream out_file(filename.data());
out_file << "spB_link,spM_link,spT_link,weight,z_vertex" << std::endl;
for (const seed sd : seeds) {
  out_file << sd.spB_link << "," << sd.spM_link << "," << sd.spT_link << ","
           << sd.weight << "," << sd.z_vertex << "," << std::endl;
}
out_file.close();
```

The floating-point fields `weight` and `z_vertex` are kept as exact
rationals; only their comma structure matters to the claims. -/

/-- A traccc seed: three spacepoint links, a quality weight and the
estimated vertex z. -/
structure Seed where
  spB_link : Nat
  spM_link : Nat
  spT_link : Nat
  weight : ℚ
  z_vertex : ℚ
deriving DecidableEq

/-- The header line written first. -/
def seedHeader : String := "spB_link,spM_link,spT_link,weight,z_vertex"

/-- One data row, built exactly as the stream-insertion chain builds it —
including the trailing `<< ","` after `z_vertex`. -/
def seedRow (s : Seed) : String :=
  toString s.spB_link ++ "," ++ toString s.spM_link ++ "," ++
    toString s.spT_link ++ "," ++ toString s.weight ++ "," ++
    toString s.z_vertex ++ ","

/-- The row the spec's schema prescribes (definition follows the spec's
words, for comparison with `seedRow`): exactly the five fields
`spB_link,spM_link,spT_link,weight,z_vertex` in order, comma-delimited,
matching the header. -/
def specSchemaRow (s : Seed) : String :=
  toString s.spB_link ++ "," ++ toString s.spM_link ++ "," ++
    toString s.spT_link ++ "," ++ toString s.weight ++ "," ++
    toString s.z_vertex

/-- Zero-padding of `traccc::io::get_event_filename`'s `event%09u` format. -/
def padZeros (width n : Nat) : String :=
  let digits := toString n
  String.mk (List.replicate (width - digits.length) '0') ++ digits

/-- Embeds `traccc::io::get_event_filename(event, suffix)`: `event%09u` followed by
the suffix. -/
def get_event_filename (event : Nat) (suffix : String) : String :=
  "event" ++ padZeros 9 event ++ suffix

/-- One written text file: its path, whether it was opened fresh
(`std::ofstream out_file(filename)` truncates; append mode would be
`std::ios::app`), and its lines. -/
structure FileOut where
  path : String
  truncated : Bool
  lines : List String
deriving DecidableEq

/-- The seed-collection overload of `traccc::io::mywrite`: one call writes
exactly one file for the (event, seeds, device-label) triple. -/
def mywriteSeeds (event : Nat) (dataDir directory dev : String)
    (seeds : List Seed) : FileOut :=
  { path := dataDir ++ directory ++ dev ++ get_event_filename event "-seeds.txt"
    truncated := true
    lines := seedHeader :: seeds.map seedRow }

end MyWrite

namespace TruthFitting

/-!
## Truth-track-fitting executable (`main` of the second translation unit)
-/

/-- Run inputs of the truth-fitting `main`: the event range, the `run-cpu`
flag, the `check_performance` flag, and (as black-box per-event functions)
the fitted-track counts the device and host fitters produce. -/
structure TFInput where
  skip : Nat
  events : Nat
  run_cpu : Bool
  check_performance : Bool
  cudaFitted : Nat → Nat
  cpuFitted : Nat → Nat

/-- Observable outcome of the truth-fitting `main`. -/
structure TFOutcome where
  processed : List Nat
  n_fitted_tracks : Nat
  n_fitted_tracks_cuda : Nat
  exitCode : Nat

/-- The truth-fitting `main`: loop over `[skip, skip+events)`, fit on the
device (and on the host only under `run-cpu`), accumulate the two fitted
counters, print the statistics, and `return 1;`. -/
def truthFittingMain (inp : TFInput) : TFOutcome :=
  let evs := SeqRun.processedEvents inp.skip inp.events
  { processed := evs
    n_fitted_tracks_cuda := (evs.map inp.cudaFitted).sum
    n_fitted_tracks :=
      if inp.run_cpu then (evs.map inp.cpuFitted).sum else 0
    exitCode := 1 }

end TruthFitting

/-! # Theorems -/

namespace SeqRun

theorem loopFrom_eq_range' (event stop : Nat) :
    loopFrom event stop = List.range' event (stop - event) := by
  induction event, stop using loopFrom.induct with
  | case1 event stop h ih =>
    rw [loopFrom, if_pos h, ih]
    have h1 : stop - event = (stop - (event + 1)) + 1 := by omega
    rw [h1, List.range'_succ]
  | case2 event stop h =>
    rw [loopFrom, if_neg h]
    have h1 : stop - event = 0 := by omega
    rw [h1, List.range'_zero]

theorem processedEvents_eq_range' (skip events : Nat) :
    processedEvents skip events = List.range' skip events := by
  rw [processedEvents, loopFrom_eq_range']
  congr 1
  omega

/-- Claim C8: `seq_run` (and the truth-fitting `main`) processes exactly the
event indices of the half-open range `[skip, skip + events)`: the processed
list is `range' skip events`, so each index in the range appears exactly
once (`Nodup`), in strictly increasing order (`Pairwise (· < ·)`), and an
index is processed iff it lies in the range. -/
theorem event_loop_processes_exact_range (skip events : Nat) :
    processedEvents skip events = List.range' skip events ∧
    (processedEvents skip events).Nodup ∧
    (processedEvents skip events).Pairwise (· < ·) ∧
    ∀ i, i ∈ processedEvents skip events ↔ skip ≤ i ∧ i < skip + events := by
  rw [processedEvents_eq_range']
  exact ⟨rfl, List.nodup_range' skip events,
    List.pairwise_lt_range' skip events 1 (by omega),
    fun i => List.mem_range'_1⟩

theorem innerLoop_eq_if (p : List Nat → Bool) (l : List (List Nat)) :
    innerLoop p l = if l.any p then 1 else 0 := by
  induction l with
  | nil => rfl
  | cons d rest ih =>
    by_cases h : p d <;> simp [innerLoop, h, ih]

theorem nMatches_eq_countP (iso : List Nat → List Nat → Bool)
    (cpu cuda : List (List Nat)) :
    nMatches iso cpu cuda = cpu.countP (fun c => cuda.any (iso c)) := by
  induction cpu with
  | nil => rfl
  | cons c rest ih =>
    simp only [nMatches, List.map_cons, List.sum_cons, List.countP_cons]
      at ih ⊢
    rw [innerLoop_eq_if, ih]
    by_cases h : cuda.any (iso c)
    · simp [h, Nat.add_comm]
    · simp [h]

theorem nMatches_le_length (iso : List Nat → List Nat → Bool)
    (cpu cuda : List (List Nat)) :
    nMatches iso cpu cuda ≤ cpu.length := by
  rw [nMatches_eq_countP]
  exact List.countP_le_length _

/-- Claim C5: the track-candidate comparator scans, for each CPU candidate,
the accelerator candidates and counts a match on the first hit, so a CPU
candidate contributes at most one match (`countP` form), the match count
never exceeds the CPU candidate count, the reported scalar is
matches divided by the CPU candidate count, and the comparator's outcome
never aborts the run: the set of processed events is the full configured
range whatever the matching predicate and candidate data. -/
theorem track_candidate_comparator_first_hit
    (iso : List Nat → List Nat → Bool) (cpu cuda : List (List Nat)) :
    nMatches iso cpu cuda = cpu.countP (fun c => cuda.any (iso c)) ∧
    nMatches iso cpu cuda ≤ cpu.length ∧
    matchRate iso cpu cuda = fdiv (nMatches iso cpu cuda) cpu.length ∧
    ∀ w compare skip events cpuCands cudaCands,
      (seqRunFiles w compare skip events iso cpuCands cudaCands).processed =
        processedEvents skip events := by
  refine ⟨nMatches_eq_countP iso cpu cuda, nMatches_le_length iso cpu cuda,
    rfl, fun w compare skip events cpuCands cudaCands => ?_⟩
  cases hr : w.tempoReadOk <;> cases hp : w.procTimeOpenOk <;>
    simp [seqRunFiles, hr, hp]

/-- Claim C9: with the CPU cross-check enabled and zero CPU track
candidates, the match count is 0, the divisor `track_candidates.size()` is 0,
the unguarded `float` division produces NaN, and that NaN is the first field
of the line appended to `track_candidate.txt` (when the append-mode open
succeeds), with no error reported. -/
theorem zero_cpu_candidates_writes_nan
    (iso : List Nat → List Nat → Bool) (cuda : List (List Nat)) :
    nMatches iso [] cuda = 0 ∧
    matchRate iso [] cuda = FloatV.nan ∧
    comparatorFileLine iso [] cuda = "nan 0 " ++ toString cuda.length ∧
    eventFileSection true iso [] cuda =
      ([comparatorFileLine iso [] cuda], []) := by
  refine ⟨rfl, ?_, ?_, rfl⟩
  · simp [matchRate, nMatches, fdiv]
  · rfl

theorem seqRunStats_false_aux (evs : List EventData) (s : Stats) (c : Nat) :
    (evs.foldl
      (fun acc ev =>
        (processEvent false ev acc.1, acc.2 + if false then 1 else 0))
      (s, c)).1.n_seeds = s.n_seeds ∧
    (evs.foldl
      (fun acc ev =>
        (processEvent false ev acc.1, acc.2 + if false then 1 else 0))
      (s, c)).1.n_found_tracks = s.n_found_tracks ∧
    (evs.foldl
      (fun acc ev =>
        (processEvent false ev acc.1, acc.2 + if false then 1 else 0))
      (s, c)).1.n_fitted_tracks = s.n_fitted_tracks ∧
    (evs.foldl
      (fun acc ev =>
        (processEvent false ev acc.1, acc.2 + if false then 1 else 0))
      (s, c)).2 = c := by
  induction evs generalizing s c with
  | nil => exact ⟨rfl, rfl, rfl, rfl⟩
  | cons ev rest ih =>
    simpa [processEvent] using ih (processEvent false ev s) c

/-- Claim C4: with the CPU cross-check disabled (`compare_with_cpu` false),
the CPU-side counters `n_seeds`, `n_found_tracks`, `n_fitted_tracks` remain
at their zero-initialised value at the end of the run, and the comparator
block is executed zero times, for every event sequence. -/
theorem cpu_counters_zero_without_cross_check (evs : List EventData) :
    (seqRunStats false evs).1.n_seeds = 0 ∧
    (seqRunStats false evs).1.n_found_tracks = 0 ∧
    (seqRunStats false evs).1.n_fitted_tracks = 0 ∧
    (seqRunStats false evs).2 = 0 :=
  seqRunStats_false_aux evs Stats.init 0

theorem loopSections_fst (w : IOWorld) (compare : Bool)
    (iso : List Nat → List Nat → Bool)
    (cpuCands cudaCands : Nat → List (List Nat)) (evs : List Nat) :
    (loopSections w compare iso cpuCands cudaCands evs).1 =
      if compare then
        (evs.filter w.trackCandOpenOk).map
          (fun e => comparatorFileLine iso (cpuCands e) (cudaCands e))
      else [] := by
  induction evs with
  | nil => cases compare <;> rfl
  | cons e rest ih =>
    cases compare with
    | false => simpa [loopSections] using ih
    | true =>
      cases h : w.trackCandOpenOk e <;>
        simp [loopSections, eventFileSection, h, ih, List.filter_cons]

theorem loopSections_snd (w : IOWorld) (compare : Bool)
    (iso : List Nat → List Nat → Bool)
    (cpuCands cudaCands : Nat → List (List Nat)) (evs : List Nat) :
    (loopSections w compare iso cpuCands cudaCands evs).2 =
      if compare then
        (evs.filter (fun e => !w.trackCandOpenOk e)).map
          (fun _ => "Unable to open file: ")
      else [] := by
  induction evs with
  | nil => cases compare <;> rfl
  | cons e rest ih =>
    cases compare with
    | false => simpa [loopSections] using ih
    | true =>
      cases h : w.trackCandOpenOk e <;>
        simp [loopSections, eventFileSection, h, ih, List.filter_cons]

/-- Claim C2, counterexample: in a world where every other open succeeds but
the output file `processing_time.txt` cannot be opened for writing
(`std::ofstream outputFile("processing_time.txt")` fails after the loop),
`seq_run` reports the failure and returns 1, while the all-successful world
returns 0 — so an output file that cannot be opened for writing does change
the run's exit status, contradicting the claim as stated. -/
theorem seq_run_exit_changed_by_open_failure :
    (seqRunFiles ⟨fun _ => true, true, true, false⟩ false 0 0 (fun _ _ => true)
      (fun _ => []) (fun _ => [])).exitCode = 1 ∧
    (seqRunFiles IOWorld.allOk false 0 0 (fun _ _ => true)
      (fun _ => []) (fun _ => [])).exitCode = 0 ∧
    (seqRunFiles ⟨fun _ => true, true, true, false⟩ false 0 0 (fun _ _ => true)
      (fun _ => []) (fun _ => [])).errLines =
      ["unable to open processing_time.txt"] :=
  ⟨by decide, by decide,
    by simp [seqRunFiles, processedEvents, loopFrom, loopSections]⟩

/-- Claim C2, amended: every event of the configured range is processed
whatever opens fail; a failed per-event `track_candidate.txt` open (and a
failed `tempo_time.txt` append) is reported to the error stream and only
that write is skipped; but the run's exit status is 0 only when both
post-loop opens (`tempo_time.txt` for reading, `processing_time.txt` for
writing) succeed, and 1 otherwise. -/
theorem seq_run_io_failure_behaviour (w : IOWorld) (compare : Bool)
    (skip events : Nat) (iso : List Nat → List Nat → Bool)
    (cpuCands cudaCands : Nat → List (List Nat)) :
    (seqRunFiles w compare skip events iso cpuCands cudaCands).processed =
      processedEvents skip events ∧
    (seqRunFiles w compare skip events iso cpuCands cudaCands).exitCode =
      cond (w.tempoReadOk && w.procTimeOpenOk) 0 1 ∧
    (seqRunFiles w compare skip events iso cpuCands cudaCands).trackCandAppends =
      (if compare then
        ((processedEvents skip events).filter w.trackCandOpenOk).map
          (fun e => comparatorFileLine iso (cpuCands e) (cudaCands e))
      else []) ∧
    (seqRunFiles w compare skip events iso cpuCands cudaCands).tempoAppends =
      (if w.tempoOpenOk then ["<elapsedTimes>"] else []) := by
  cases hr : w.tempoReadOk <;> cases hp : w.procTimeOpenOk <;>
    simp [seqRunFiles, hr, hp, loopSections_fst, loopSections_snd]

/-- Claim C3, counterexample: the per-event accelerator trace of `seq_run`
contains two `stream.synchronize()` calls (after seeding and after parameter
estimation), not exactly one, refuting the claimed property as stated. -/
theorem event_trace_not_single_sync : ¬ c3ClaimProp := by
  intro h
  exact absurd h.2 (by decide)

/-- Claim C3, amended: all stream-directed operations of the per-event trace
are issued on the one stream of the orchestrator, in issue order (the trace
lists them in source order); the trace contains exactly two
`stream.synchronize()` calls; and every host-side read of accelerator
results is separated from every earlier kernel by a stream synchronize or a
blocking copy wait. -/
theorem event_trace_stream_discipline :
    onOneStream eventTrace = true ∧
    syncCount eventTrace = 2 ∧
    readsCovered eventTrace = true := by decide

/-- Claim C7: per event, the navigation scratch buffer is the only
navigation allocation, sized
`navigation_buffer_size_scaler * copy.get_size(seeds_cuda_buffer)` (the
scaler times the accelerator-path seed count), and that same buffer is an
argument of both the `device_finding` and the `device_fitting` call. -/
theorem navigation_buffer_sized_and_shared
    (nSp nMod nMeas scaler nSeeds : Nat) :
    (eventAllocations nSp nMod nMeas scaler nSeeds).filter
        (fun p => decide (p.1 = BufferId.navigation)) =
      [(BufferId.navigation, scaler * nSeeds)] ∧
    BufferId.navigation ∈ findingArgs ∧
    BufferId.navigation ∈ fittingArgs := by
  refine ⟨?_, by decide, by decide⟩
  simp +decide [eventAllocations, List.filter]

end SeqRun

namespace MultiVtxSim

theorem setupPuLoop_map_seed (baseSeed ntrk : Nat) :
    ∀ n i s, (setupPuLoop baseSeed ntrk n i s).map PuGenCfg.seed =
      List.range' (baseSeed + i) n := by
  intro n
  induction n with
  | zero => intro i s; rfl
  | succ m ih =>
    intro i s
    rw [List.range'_succ]
    simp only [setupPuLoop, List.map_cons]
    rw [ih (i + 1)]
    congr 1

theorem setupPuLoop_map_n_tracks (baseSeed ntrk : Nat) :
    ∀ n i s, (setupPuLoop baseSeed ntrk n i s).map PuGenCfg.n_tracks =
      List.replicate n ntrk := by
  intro n
  induction n with
  | zero => intro i s; rfl
  | succ m ih =>
    intro i s
    simp only [setupPuLoop, List.map_cons, List.replicate_succ]
    rw [ih (i + 1)]

/-- Claim C1, counterexample: `setup_pu` is not a deterministic function of
`(nvtx, ntrk_per_vtx)` and the configured seed — the vertex-position engine
is seeded from `std::random_device`, so two runs whose hardware draws differ
(here 1 and 2, with `nvtx = 1`, `ntrk_per_vtx = 5` and the same base seed)
produce different vertex positions. -/
theorem setup_pu_depends_on_hardware_draw : ¬ c1ClaimProp := by
  intro h
  have h2 := h 1 5 0 1 2
  have hne : setup_pu 1 5 0 1 ≠ setup_pu 1 5 0 2 := by
    simp [setup_pu, setupPuLoop, normalDraw, engineSeedInit, engineNext,
      PuGenCfg.mk.injEq]
  exact hne h2

/-- Claim C1, amended: the vertex positions of `setup_pu` depend on the
value drawn from `std::random_device` at call time, so they are not a
function of `(nvtx, ntrk_per_vtx, seed)`; what is deterministic is the rest
of the generator configuration: for every hardware draw, `setup_pu` builds
exactly `nvtx` generators whose track counts all equal `ntrk_per_vtx` and
whose seeds are `baseSeed + i` for `i = 0 .. nvtx-1`, independent of the
draw (and the whole output is a pure function once the draw is fixed). -/
theorem setup_pu_deterministic_seed_schedule
    (nvtx ntrk baseSeed rd rd' : Nat) :
    (setup_pu nvtx ntrk baseSeed rd).map PuGenCfg.seed =
      List.range' baseSeed nvtx ∧
    (setup_pu nvtx ntrk baseSeed rd).map PuGenCfg.seed =
      (setup_pu nvtx ntrk baseSeed rd').map PuGenCfg.seed ∧
    (setup_pu nvtx ntrk baseSeed rd).map PuGenCfg.n_tracks =
      List.replicate nvtx ntrk ∧
    (setup_pu nvtx ntrk baseSeed rd).length = nvtx := by
  have h1 := setupPuLoop_map_seed baseSeed ntrk nvtx 0 (engineSeedInit rd)
  have h2 := setupPuLoop_map_seed baseSeed ntrk nvtx 0 (engineSeedInit rd')
  have h3 := setupPuLoop_map_n_tracks baseSeed ntrk nvtx 0 (engineSeedInit rd)
  refine ⟨by simpa using h1, ?_, by simpa using h3, ?_⟩
  · rw [setup_pu, setup_pu, h1, h2]
  · have := congrArg List.length h1
    simpa [setup_pu] using this

end MultiVtxSim

namespace MyWrite

/-- Claim C6, counterexample: the data row written for the concrete seed
`(1, 2, 3, 4, 5)` is `"1,2,3,4,5,"` — because of the trailing `<< ","` it is
not the five comma-delimited fields `"1,2,3,4,5"` the schema (and the header
line) prescribe. -/
theorem seed_row_not_five_fields :
    seedRow ⟨1, 2, 3, 4, 5⟩ ≠ specSchemaRow ⟨1, 2, 3, 4, 5⟩ := by decide

/-- Claim C6, amended: one `mywrite` call on a seed collection writes
exactly one file for the (event, seeds, device-label) triple, opened fresh
(truncated, not appended), whose first line is the five-field header and
whose every data row is the five schema fields in order, comma-delimited,
followed by one trailing comma (so the rows do not exactly match the header
schema). -/
theorem mywrite_seeds_one_fresh_file (event : Nat)
    (dataDir directory dev : String) (seeds : List Seed) :
    (mywriteSeeds event dataDir directory dev seeds).truncated = true ∧
    (mywriteSeeds event dataDir directory dev seeds).path =
      dataDir ++ directory ++ dev ++ get_event_filename event "-seeds.txt" ∧
    (mywriteSeeds event dataDir directory dev seeds).lines =
      seedHeader :: seeds.map seedRow ∧
    ∀ s, seedRow s = specSchemaRow s ++ "," := by
  refine ⟨rfl, rfl, rfl, fun s => ?_⟩
  simp [seedRow, specSchemaRow, String.append_assoc]

end MyWrite

namespace TruthFitting

/-- Claim C10: the truth-track-fitting `main` ends in `return 1;`
unconditionally — every run, including one that processes its whole
configured event range with no failure of any kind, exits with the
error-like status 1. -/
theorem main_always_returns_one (inp : TFInput) :
    (truthFittingMain inp).exitCode = 1 ∧
    (truthFittingMain inp).processed =
      SeqRun.processedEvents inp.skip inp.events :=
  ⟨rfl, rfl⟩

end TruthFitting
